import Mathlib

/-
Verification of the atmospheric-sensor driver (BME280-style sensor over I2C).

The development shallowly embeds the Rust sources:
  src/calibration.rs  -- calibration structs and the fixed-point compensation engine
  src/i2c.rs          -- register-level getters, coefficient decoding, config enums
  src/lib.rs          -- the AtmosphericSensor facade threading t_fine

Machine integers are modelled as Lean `Int` with explicit two's-complement
wrapping (`wrap32` / `wrap64`) applied at every Rust arithmetic operation on
`i32` / `i64`; `>>` on signed values is arithmetic shift, i.e. floor division
by a power of two; Rust `/` on `i64` is truncating division (`Int.tdiv`).
Fallible register reads are modelled with `Except`, and `.unwrap()` (which
aborts the program on error) with `unwrapAbort` into `Option`, where `none`
stands for the abort.
-/

namespace AtmoSensor

/-- Wrap an integer into the range of a signed two's-complement `w`-bit value,
as Rust release-mode arithmetic does on overflow. -/
def wrapS (w : Nat) (x : Int) : Int := (x + 2 ^ (w - 1)) % 2 ^ w - 2 ^ (w - 1)

/-- Wrap into `i32` range. -/
def wrap32 (x : Int) : Int := wrapS 32 x

/-- Wrap into `i64` range. -/
def wrap64 (x : Int) : Int := wrapS 64 x

/-- Arithmetic shift right (Rust `>>` on a signed integer): floor division by
`2 ^ n`.  Never overflows, so no wrap is needed. -/
def asr (x : Int) (n : Nat) : Int := Int.fdiv x (2 ^ n)

namespace I32

/-- Rust `i32` addition (wrapping). -/
def add (a b : Int) : Int := wrap32 (a + b)

/-- Rust `i32` subtraction (wrapping). -/
def sub (a b : Int) : Int := wrap32 (a - b)

/-- Rust `i32` multiplication (wrapping). -/
def mul (a b : Int) : Int := wrap32 (a * b)

/-- Rust `i32` left shift by a constant (wrapping). -/
def shl (a : Int) (n : Nat) : Int := wrap32 (a * 2 ^ n)

/-- Rust `i32` arithmetic right shift. -/
def shr (a : Int) (n : Nat) : Int := asr a n

end I32

namespace I64

/-- Rust `i64` addition (wrapping). -/
def add (a b : Int) : Int := wrap64 (a + b)

/-- Rust `i64` subtraction (wrapping). -/
def sub (a b : Int) : Int := wrap64 (a - b)

/-- Rust `i64` multiplication (wrapping). -/
def mul (a b : Int) : Int := wrap64 (a * b)

/-- Rust `i64` left shift by a constant (wrapping). -/
def shl (a : Int) (n : Nat) : Int := wrap64 (a * 2 ^ n)

/-- Rust `i64` arithmetic right shift. -/
def shr (a : Int) (n : Nat) : Int := asr a n

/-- Rust `i64` division: truncation toward zero. -/
def div (a b : Int) : Int := wrap64 (Int.tdiv a b)

end I64

/-- Temperature calibration coefficients (`TemperatureCalibration` in
src/calibration.rs): `t1 : u16`, `t2 t3 : i16`, held as integers. -/
structure TemperatureCalibration where
  t1 : Int
  t2 : Int
  t3 : Int
  deriving DecidableEq

/-- Embedding of `TemperatureCalibration::compensate_temperature`
(src/calibration.rs lines 55-59): all intermediates are wrapping `i32`. -/
def TemperatureCalibration.compensate_temperature (c : TemperatureCalibration)
    (adc_t : Int) : Int :=
  let var1 := I32.shr (I32.mul (I32.sub (I32.shr adc_t 3) (I32.shl c.t1 1)) c.t2) 11
  let var2 := I32.shr (I32.mul (I32.shr (I32.mul (I32.sub (I32.shr adc_t 4) c.t1)
    (I32.sub (I32.shr adc_t 4) c.t1)) 12) c.t3) 14
  I32.add var1 var2

/-- Temperature formula transcribed from the spec text (section 4.2):
var1 = ((raw>>3 - (T1<<1)) * T2) >> 11,
var2 = (((raw>>4 - T1) * (raw>>4 - T1)) >> 12 * T3) >> 14,
t_fine = var1 + var2, in wrapping 32-bit signed arithmetic. -/
def t_fine_spec (t1 t2 t3 raw : Int) : Int :=
  let var1 := I32.shr (I32.mul (I32.sub (I32.shr raw 3) (I32.shl t1 1)) t2) 11
  let var2 := I32.shr (I32.mul (I32.shr (I32.mul (I32.sub (I32.shr raw 4) t1)
    (I32.sub (I32.shr raw 4) t1)) 12) t3) 14
  I32.add var1 var2

/-- Pressure calibration coefficients (`PressureCalibration` in
src/calibration.rs): `p1 : u16`, `p2..p9 : i16`, held as integers. -/
structure PressureCalibration where
  p1 : Int
  p2 : Int
  p3 : Int
  p4 : Int
  p5 : Int
  p6 : Int
  p7 : Int
  p8 : Int
  p9 : Int
  deriving DecidableEq

/-- The final value of `var1` computed before the zero test in
`PressureCalibration::compensate_pressure` (src/calibration.rs lines 94-99).
It depends only on `t_fine` and the coefficients. -/
def PressureCalibration.var1_pre (c : PressureCalibration) (t_fine : Int) : Int :=
  let var1 := I64.sub t_fine 128000
  let var1 := I64.add (I64.shr (I64.mul (I64.mul var1 var1) c.p3) 8)
    (I64.shl (I64.mul var1 c.p2) 12)
  I64.shr (I64.mul (I64.add (2 ^ 47) var1) c.p1) 33

/-- The final value of `var2` computed before the zero test in
`PressureCalibration::compensate_pressure` (src/calibration.rs lines 94-97). -/
def PressureCalibration.var2_pre (c : PressureCalibration) (t_fine : Int) : Int :=
  let var1 := I64.sub t_fine 128000
  let var2 := I64.mul (I64.mul var1 var1) c.p6
  let var2 := I64.add var2 (I64.shl (I64.mul var1 c.p5) 17)
  I64.add var2 (I64.shl c.p4 35)

/-- Embedding of `PressureCalibration::compensate_pressure`
(src/calibration.rs lines 93-113): wrapping `i64` intermediates; the only
division in the function is the `I64.div ... var1` in the else branch, guarded
by `var1 = 0` returning `0`; the final `p as u32` cast is `% 2 ^ 32`. -/
def PressureCalibration.compensate_pressure (c : PressureCalibration)
    (adc_p t_fine : Int) : Int :=
  let var1 := c.var1_pre t_fine
  let var2 := c.var2_pre t_fine
  if var1 = 0 then 0
  else
    let p := I64.sub 1048576 adc_p
    let p := I64.div (I64.mul (I64.sub (I64.shl p 31) var2) 3125) var1
    let var1 := I64.shr (I64.mul (I64.mul c.p9 (I64.shr p 13)) (I64.shr p 13)) 25
    let var2 := I64.shr (I64.mul c.p8 p) 19
    let p := I64.add (I64.shr (I64.add (I64.add p var1) var2) 8) (I64.shl c.p7 4)
    p % 2 ^ 32

/-- Humidity calibration coefficients (`HumidityCalibration` in
src/calibration.rs): `h1 h3 : u8`, `h2 h4 h5 : i16`, `h6 : i8`, as integers. -/
structure HumidityCalibration where
  h1 : Int
  h2 : Int
  h3 : Int
  h4 : Int
  h5 : Int
  h6 : Int
  deriving DecidableEq

/-- The clamp applied to the running humidity value
(src/calibration.rs lines 147-151): saturate into `[0, 419430400]`. -/
def clampHumidity (v : Int) : Int :=
  if v < 0 then 0
  else if v > 419430400 then 419430400
  else v

/-- The running value of `var1` in `HumidityCalibration::compensate_humidity`
just after the clamp (src/calibration.rs lines 142-151): wrapping `i32`
intermediates, then saturating clamp. -/
def HumidityCalibration.clamped (c : HumidityCalibration) (adc_h t_fine : Int) : Int :=
  let var1 := I32.sub t_fine 76800
  let var1 := I32.mul
    (I32.shr (I32.add (I32.sub (I32.sub (I32.shl adc_h 14) (I32.shl c.h4 20))
      (I32.mul c.h5 var1)) 16384) 15)
    (I32.shr (I32.add (I32.mul (I32.add (I32.shr (I32.mul (I32.shr (I32.mul var1 c.h6) 10)
      (I32.add (I32.shr (I32.mul var1 c.h3) 11) 32768)) 10) 2097152) c.h2) 8192) 14)
  let var1 := I32.sub var1
    (I32.shr (I32.mul (I32.shr (I32.mul (I32.shr var1 15) (I32.shr var1 15)) 7) c.h1) 4)
  clampHumidity var1

/-- Embedding of `HumidityCalibration::compensate_humidity`
(src/calibration.rs lines 141-154): the clamped value shifted right by 12; the
`as u32` cast is the identity because the clamped value lies in
`[0, 419430400]`. -/
def HumidityCalibration.compensate_humidity (c : HumidityCalibration)
    (adc_h t_fine : Int) : Int :=
  asr (c.clamped adc_h t_fine) 12

/-- A pressure calibration whose coefficients are all zero; with `p1 = 0` the
first polynomial term `var1` evaluates to zero. -/
def zeroPressureCal : PressureCalibration := ⟨0, 0, 0, 0, 0, 0, 0, 0, 0⟩

/-- The calibration registers of the sensor read by the decoder
(constants consumed from src/i2c/constants.rs through src/i2c.rs); register
identity, not numeric address, is what the decode logic depends on.  Note
`DIG_H4_LSB_REG` is a single register shared by the `get_h4` and `get_h5`
decoders. -/
inductive Register where
  | DIG_T1_LSB_REG | DIG_T1_MSB_REG
  | DIG_T2_LSB_REG | DIG_T2_MSB_REG
  | DIG_T3_LSB_REG | DIG_T3_MSB_REG
  | DIG_P1_LSB_REG | DIG_P1_MSB_REG
  | DIG_P2_LSB_REG | DIG_P2_MSB_REG
  | DIG_P3_LSB_REG | DIG_P3_MSB_REG
  | DIG_P4_LSB_REG | DIG_P4_MSB_REG
  | DIG_P5_LSB_REG | DIG_P5_MSB_REG
  | DIG_P6_LSB_REG | DIG_P6_MSB_REG
  | DIG_P7_LSB_REG | DIG_P7_MSB_REG
  | DIG_P8_LSB_REG | DIG_P8_MSB_REG
  | DIG_P9_LSB_REG | DIG_P9_MSB_REG
  | DIG_H1_REG
  | DIG_H2_LSB_REG | DIG_H2_MSB_REG
  | DIG_H3_REG
  | DIG_H4_MSB_REG | DIG_H4_LSB_REG
  | DIG_H5_MSB_REG
  | DIG_H6_REG
  deriving DecidableEq

/-- The sensor bus as seen by the decoder: each register read either delivers
a byte or fails (`none` models a failed I2C transaction). -/
def Device : Type := Register → Option (Fin 256)

/-- Embedding of `AtmosphericSensorI2cError` (src/i2c.rs lines 13-16). -/
inductive AtmosphericSensorI2cError where
  | IOError
  deriving DecidableEq

/-- Embedding of `read_from_register` (src/i2c.rs lines 484-489): a failed bus
transaction is turned into `Err(IOError)`. -/
def read_from_register (dev : Device) (r : Register) :
    Except AtmosphericSensorI2cError (Fin 256) :=
  match dev r with
  | some b => .ok b
  | none => .error .IOError

/-- Model of Rust `.unwrap()` on a `Result`: `none` stands for the program
abort raised on the error case. -/
def unwrapAbort {α : Type} : Except AtmosphericSensorI2cError α → Option α
  | .ok a => some a
  | .error _ => none

/-- Embedding of `read_multiple_registers` (src/i2c.rs lines 506-516): read
each register in turn, returning the first I/O error encountered. -/
def read_multiple_registers (dev : Device) :
    List Register → Except AtmosphericSensorI2cError (List (Fin 256))
  | [] => .ok []
  | r :: rs =>
    match read_from_register dev r with
    | .ok b =>
      match read_multiple_registers dev rs with
      | .ok bs => .ok (b :: bs)
      | .error e => .error e
    | .error e => .error e

/-- LittleEndian::read_u16 on the byte buffer: low byte first. -/
def readU16LE : List (Fin 256) → Nat
  | lo :: hi :: _ => lo.val ||| (hi.val <<< 8)
  | _ => 0

/-- Rust `as i16` reinterpretation of a `u16` value (argument below 65536). -/
def toI16 (n : Nat) : Int :=
  if n < 32768 then (n : Int) else (n : Int) - 65536

/-- Rust `as i8` reinterpretation of a `u8` value (argument below 256). -/
def toI8 (n : Nat) : Int :=
  if n < 128 then (n : Int) else (n : Int) - 256

/-- Embedding of `get_t1` (src/i2c.rs lines 326-332): `none` is the `.unwrap()`
abort after a failed read. -/
def get_t1 (dev : Device) : Option Nat :=
  (unwrapAbort (read_multiple_registers dev
    [.DIG_T1_LSB_REG, .DIG_T1_MSB_REG])).map readU16LE

/-- Embedding of `get_t2` (src/i2c.rs lines 335-341). -/
def get_t2 (dev : Device) : Option Int :=
  (unwrapAbort (read_multiple_registers dev
    [.DIG_T2_LSB_REG, .DIG_T2_MSB_REG])).map fun bs => toI16 (readU16LE bs)

/-- Embedding of `get_t3` (src/i2c.rs lines 344-350). -/
def get_t3 (dev : Device) : Option Int :=
  (unwrapAbort (read_multiple_registers dev
    [.DIG_T3_LSB_REG, .DIG_T3_MSB_REG])).map fun bs => toI16 (readU16LE bs)

/-- Embedding of `get_p1` (src/i2c.rs lines 353-359): unsigned 16-bit. -/
def get_p1 (dev : Device) : Option Nat :=
  (unwrapAbort (read_multiple_registers dev
    [.DIG_P1_LSB_REG, .DIG_P1_MSB_REG])).map readU16LE

/-- Embedding of `get_p2` (src/i2c.rs lines 362-368). -/
def get_p2 (dev : Device) : Option Int :=
  (unwrapAbort (read_multiple_registers dev
    [.DIG_P2_LSB_REG, .DIG_P2_MSB_REG])).map fun bs => toI16 (readU16LE bs)

/-- Embedding of `get_p3` (src/i2c.rs lines 371-377). -/
def get_p3 (dev : Device) : Option Int :=
  (unwrapAbort (read_multiple_registers dev
    [.DIG_P3_LSB_REG, .DIG_P3_MSB_REG])).map fun bs => toI16 (readU16LE bs)

/-- Embedding of `get_p4` (src/i2c.rs lines 380-386). -/
def get_p4 (dev : Device) : Option Int :=
  (unwrapAbort (read_multiple_registers dev
    [.DIG_P4_LSB_REG, .DIG_P4_MSB_REG])).map fun bs => toI16 (readU16LE bs)

/-- Embedding of `get_p5` (src/i2c.rs lines 389-395). -/
def get_p5 (dev : Device) : Option Int :=
  (unwrapAbort (read_multiple_registers dev
    [.DIG_P5_LSB_REG, .DIG_P5_MSB_REG])).map fun bs => toI16 (readU16LE bs)

/-- Embedding of `get_p6` (src/i2c.rs lines 398-404). -/
def get_p6 (dev : Device) : Option Int :=
  (unwrapAbort (read_multiple_registers dev
    [.DIG_P6_LSB_REG, .DIG_P6_MSB_REG])).map fun bs => toI16 (readU16LE bs)

/-- Embedding of `get_p7` (src/i2c.rs lines 407-413). -/
def get_p7 (dev : Device) : Option Int :=
  (unwrapAbort (read_multiple_registers dev
    [.DIG_P7_LSB_REG, .DIG_P7_MSB_REG])).map fun bs => toI16 (readU16LE bs)

/-- Embedding of `get_p8` (src/i2c.rs lines 416-422). -/
def get_p8 (dev : Device) : Option Int :=
  (unwrapAbort (read_multiple_registers dev
    [.DIG_P8_LSB_REG, .DIG_P8_MSB_REG])).map fun bs => toI16 (readU16LE bs)

/-- Embedding of `get_p9` (src/i2c.rs lines 425-431). -/
def get_p9 (dev : Device) : Option Int :=
  (unwrapAbort (read_multiple_registers dev
    [.DIG_P9_LSB_REG, .DIG_P9_MSB_REG])).map fun bs => toI16 (readU16LE bs)

/-- Embedding of `get_h1` (src/i2c.rs lines 434-437): `buffer.pop().unwrap()`
is the last element of the one-byte buffer. -/
def get_h1 (dev : Device) : Option Nat :=
  (((unwrapAbort (read_multiple_registers dev [.DIG_H1_REG])).bind
    List.getLast?).map Fin.val)

/-- Embedding of `get_h2` (src/i2c.rs lines 440-446). -/
def get_h2 (dev : Device) : Option Int :=
  (unwrapAbort (read_multiple_registers dev
    [.DIG_H2_LSB_REG, .DIG_H2_MSB_REG])).map fun bs => toI16 (readU16LE bs)

/-- Embedding of `get_h3` (src/i2c.rs lines 449-452). -/
def get_h3 (dev : Device) : Option Nat :=
  (((unwrapAbort (read_multiple_registers dev [.DIG_H3_REG])).bind
    List.getLast?).map Fin.val)

/-- Embedding of `get_h4` (src/i2c.rs lines 455-461): two individually
unwrapped single-register reads, then `((b0 << 4) | (b1 & 0x0F)) as i16`. -/
def get_h4 (dev : Device) : Option Int := do
  let b0 ← unwrapAbort (read_from_register dev .DIG_H4_MSB_REG)
  let b1 ← unwrapAbort (read_from_register dev .DIG_H4_LSB_REG)
  pure (toI16 ((b0.val <<< 4) ||| (b1.val &&& 0x0F)))

/-- Embedding of `get_h5` (src/i2c.rs lines 464-470): reads `DIG_H5_MSB_REG`
and the same `DIG_H4_LSB_REG` register as `get_h4`, then
`((b0 << 4) | ((b1 >> 4) & 0x0F)) as i16`. -/
def get_h5 (dev : Device) : Option Int := do
  let b0 ← unwrapAbort (read_from_register dev .DIG_H5_MSB_REG)
  let b1 ← unwrapAbort (read_from_register dev .DIG_H4_LSB_REG)
  pure (toI16 ((b0.val <<< 4) ||| ((b1.val >>> 4) &&& 0x0F)))

/-- Embedding of `get_h6` (src/i2c.rs lines 473-478): single read, `as i8`. -/
def get_h6 (dev : Device) : Option Int :=
  (unwrapAbort (read_from_register dev .DIG_H6_REG)).map fun b => toI8 b.val

/-- Embedding of `TemperatureCalibration::build` (src/calibration.rs lines
47-53): the three getters are evaluated left to right; `none` (a `.unwrap()`
abort inside a getter) stops the construction. -/
def TemperatureCalibration.build (dev : Device) : Option TemperatureCalibration := do
  let t1 ← get_t1 dev
  let t2 ← get_t2 dev
  let t3 ← get_t3 dev
  pure ⟨(t1 : Int), t2, t3⟩

/-- Embedding of `PressureCalibration::build` (src/calibration.rs lines 79-91). -/
def PressureCalibration.build (dev : Device) : Option PressureCalibration := do
  let p1 ← get_p1 dev
  let p2 ← get_p2 dev
  let p3 ← get_p3 dev
  let p4 ← get_p4 dev
  let p5 ← get_p5 dev
  let p6 ← get_p6 dev
  let p7 ← get_p7 dev
  let p8 ← get_p8 dev
  let p9 ← get_p9 dev
  pure ⟨(p1 : Int), p2, p3, p4, p5, p6, p7, p8, p9⟩

/-- Embedding of `HumidityCalibration::build` (src/calibration.rs lines
130-139). -/
def HumidityCalibration.build (dev : Device) : Option HumidityCalibration := do
  let h1 ← get_h1 dev
  let h2 ← get_h2 dev
  let h3 ← get_h3 dev
  let h4 ← get_h4 dev
  let h5 ← get_h5 dev
  let h6 ← get_h6 dev
  pure ⟨(h1 : Int), h2, (h3 : Int), h4, h5, h6⟩

/-- Embedding of `Calibration` (src/calibration.rs lines 11-15). -/
structure Calibration where
  temperature : TemperatureCalibration
  pressure : PressureCalibration
  humidity : HumidityCalibration
  deriving DecidableEq

/-- Embedding of `Calibration::build` (src/calibration.rs lines 26-32):
`none` models the program abort triggered by the first failed register read
(every getter unwraps its reads). -/
def Calibration.build (dev : Device) : Option Calibration := do
  let t ← TemperatureCalibration.build dev
  let p ← PressureCalibration.build dev
  let h ← HumidityCalibration.build dev
  pure ⟨t, p, h⟩

/-- Decoder the spec describes (sections 4.1 and 7, for comparison with
`Calibration.build`): any single register-read failure aborts the entire
decode and reports an I/O failure to the caller; otherwise the full
coefficient set is returned. -/
def Calibration.buildSpec (dev : Device) :
    Except AtmosphericSensorI2cError Calibration := do
  let t1 ← read_multiple_registers dev [.DIG_T1_LSB_REG, .DIG_T1_MSB_REG]
  let t2 ← read_multiple_registers dev [.DIG_T2_LSB_REG, .DIG_T2_MSB_REG]
  let t3 ← read_multiple_registers dev [.DIG_T3_LSB_REG, .DIG_T3_MSB_REG]
  let p1 ← read_multiple_registers dev [.DIG_P1_LSB_REG, .DIG_P1_MSB_REG]
  let p2 ← read_multiple_registers dev [.DIG_P2_LSB_REG, .DIG_P2_MSB_REG]
  let p3 ← read_multiple_registers dev [.DIG_P3_LSB_REG, .DIG_P3_MSB_REG]
  let p4 ← read_multiple_registers dev [.DIG_P4_LSB_REG, .DIG_P4_MSB_REG]
  let p5 ← read_multiple_registers dev [.DIG_P5_LSB_REG, .DIG_P5_MSB_REG]
  let p6 ← read_multiple_registers dev [.DIG_P6_LSB_REG, .DIG_P6_MSB_REG]
  let p7 ← read_multiple_registers dev [.DIG_P7_LSB_REG, .DIG_P7_MSB_REG]
  let p8 ← read_multiple_registers dev [.DIG_P8_LSB_REG, .DIG_P8_MSB_REG]
  let p9 ← read_multiple_registers dev [.DIG_P9_LSB_REG, .DIG_P9_MSB_REG]
  let h1 ← read_from_register dev .DIG_H1_REG
  let h2 ← read_multiple_registers dev [.DIG_H2_LSB_REG, .DIG_H2_MSB_REG]
  let h3 ← read_from_register dev .DIG_H3_REG
  let h4m ← read_from_register dev .DIG_H4_MSB_REG
  let h4l ← read_from_register dev .DIG_H4_LSB_REG
  let h5m ← read_from_register dev .DIG_H5_MSB_REG
  let h6 ← read_from_register dev .DIG_H6_REG
  pure ⟨⟨(readU16LE t1 : Int), toI16 (readU16LE t2), toI16 (readU16LE t3)⟩,
    ⟨(readU16LE p1 : Int), toI16 (readU16LE p2), toI16 (readU16LE p3),
      toI16 (readU16LE p4), toI16 (readU16LE p5), toI16 (readU16LE p6),
      toI16 (readU16LE p7), toI16 (readU16LE p8), toI16 (readU16LE p9)⟩,
    ⟨(h1.val : Int), toI16 (readU16LE h2), (h3.val : Int),
      toI16 ((h4m.val <<< 4) ||| (h4l.val &&& 0x0F)),
      toI16 ((h5m.val <<< 4) ||| ((h4l.val >>> 4) &&& 0x0F)), toI8 h6.val⟩⟩

/-- A device whose very first calibration register fails to read and every
other register reads zero. -/
def devT1Fail : Device := fun r =>
  match r with
  | .DIG_T1_LSB_REG => none
  | _ => some 0

/-- A device holding the mock calibration bytes of the repository test suite
for the shared-nibble humidity registers (19, 40, 3) and zero elsewhere. -/
def devH45 : Device := fun r =>
  match r with
  | .DIG_H4_MSB_REG => some 19
  | .DIG_H4_LSB_REG => some 40
  | .DIG_H5_MSB_REG => some 3
  | _ => some 0

/-- A device whose packed H4 field is 2048 (MSB byte 0x80, shared byte 0x00):
the smallest packed value a 12-bit two's-complement decode calls negative. -/
def devH4Neg : Device := fun r =>
  match r with
  | .DIG_H4_MSB_REG => some 128
  | _ => some 0

/-- Sign extension of a packed 12-bit two's-complement field, as the spec
describes the 4th and 5th humidity coefficients (argument below 4096). -/
def signExtend12 (n : Nat) : Int :=
  if n < 2048 then (n : Int) else (n : Int) - 4096

/-- A device on which every register reads zero, so the calibration build
succeeds. -/
def fullDev : Device := fun _ => some 0

/-- Embedding of `Mode` and its `From<u8>` conversion (src/i2c.rs lines
20-37): `none` models the `panic` on unrecognized raw values (note raw 2 maps
to `Forced` like raw 1). -/
inductive Mode where
  | Sleep | Forced | Normal
  deriving DecidableEq

/-- Embedding of `impl From<u8> for Mode` (src/i2c.rs lines 26-37). -/
def Mode.fromU8 : Nat → Option Mode
  | 0 => some .Sleep
  | 1 => some .Forced
  | 2 => some .Forced
  | 3 => some .Normal
  | _ => none

/-- Embedding of `Oversampling` (src/i2c.rs lines 52-59). -/
inductive Oversampling where
  | Skipped | Ox1 | Ox2 | Ox4 | Ox8 | Ox16
  deriving DecidableEq

/-- Embedding of `impl From<u8> for Oversampling` (src/i2c.rs lines 61-73):
total, every raw value of 5 or more maps to `Ox16`. -/
def Oversampling.fromU8 : Nat → Oversampling
  | 0 => .Skipped
  | 1 => .Ox1
  | 2 => .Ox2
  | 3 => .Ox4
  | 4 => .Ox8
  | _ => .Ox16

/-- Embedding of `StandyTime` (src/i2c.rs lines 91-100). -/
inductive StandyTime where
  | Ms0_5 | Ms62_5 | Ms125 | Ms250 | Ms500 | Ms1000 | Ms10 | Ms20
  deriving DecidableEq

/-- Embedding of `impl From<u8> for StandyTime` (src/i2c.rs lines 102-117):
`none` models the `panic` on raw values of 8 or more. -/
def StandyTime.fromU8 : Nat → Option StandyTime
  | 0 => some .Ms0_5
  | 1 => some .Ms62_5
  | 2 => some .Ms125
  | 3 => some .Ms250
  | 4 => some .Ms500
  | 5 => some .Ms1000
  | 6 => some .Ms10
  | 7 => some .Ms20
  | _ => none

/-- Embedding of `Filter` (src/i2c.rs lines 136-142). -/
inductive Filter where
  | Off | C2 | C4 | C8 | C16
  deriving DecidableEq

/-- Embedding of `impl From<u8> for Filter` (src/i2c.rs lines 144-155):
total, masks to 3 bits and maps 4..7 to `C16`. -/
def Filter.fromU8 (value : Nat) : Filter :=
  match value &&& 0x7 with
  | 0 => .Off
  | 1 => .C2
  | 2 => .C4
  | 3 => .C8
  | _ => .C16

/-- Embedding of the `AtmosphericSensor` state (src/lib.rs lines 15-19): the
calibration set and the stored `t_fine`; the bus handle is kept outside the
state, raw ADC readings are passed to the operations explicitly. -/
structure AtmosphericSensor where
  calibration : Calibration
  t_fine : Int
  deriving DecidableEq

/-- Embedding of `AtmosphericSensor::new` (src/lib.rs lines 23-27): builds
the calibration (aborting, `none`, if that aborts) and initializes `t_fine`
to 0. -/
def AtmosphericSensor.new (dev : Device) : Option AtmosphericSensor :=
  (Calibration.build dev).map fun c => { calibration := c, t_fine := 0 }

/-- Embedding of `AtmosphericSensor::get_temperature_celsius` (src/lib.rs
lines 70-75): stores the fresh `t_fine` and returns the integer
`(t_fine * 5 + 128) >> 8` (the final division by 100.0 into `f64` is outside
the integer model). -/
def AtmosphericSensor.get_temperature_celsius (s : AtmosphericSensor)
    (adc_t : Int) : AtmosphericSensor × Int :=
  let tf := s.calibration.temperature.compensate_temperature adc_t
  ({ s with t_fine := tf }, I32.shr (I32.add (I32.mul tf 5) 128) 8)

/-- Embedding of `AtmosphericSensor::get_pressure_pascal` (src/lib.rs lines
78-82): reads the stored `t_fine`, leaves the state untouched, and returns the
fixed-point pressure (the division by 256.0 into `f64` is outside the integer
model). -/
def AtmosphericSensor.get_pressure_pascal (s : AtmosphericSensor)
    (adc_p : Int) : AtmosphericSensor × Int :=
  (s, s.calibration.pressure.compensate_pressure adc_p s.t_fine)

/-- Embedding of `AtmosphericSensor::get_humidity_relative` (src/lib.rs lines
84-89): reads the stored `t_fine`, leaves the state untouched, and returns the
fixed-point humidity (the division by 1024.0 into `f64` is outside the integer
model). -/
def AtmosphericSensor.get_humidity_relative (s : AtmosphericSensor)
    (adc_h : Int) : AtmosphericSensor × Int :=
  (s, s.calibration.humidity.compensate_humidity adc_h s.t_fine)

/-- The sensor state produced by `AtmosphericSensor.new` on `fullDev`. -/
def zeroSensor : AtmosphericSensor :=
  ⟨⟨⟨0, 0, 0⟩, ⟨0, 0, 0, 0, 0, 0, 0, 0, 0⟩, ⟨0, 0, 0, 0, 0, 0⟩⟩, 0⟩

end AtmoSensor

namespace AtmoSensor

/-- helper: the humidity clamp lands in `[0, 419430400]`. -/
theorem clampHumidity_bounds (v : Int) :
    0 ≤ clampHumidity v ∧ clampHumidity v ≤ 419430400 := by
  unfold clampHumidity
  split_ifs <;> omega

/-- C1: for every raw ADC value and coefficients, `compensate_temperature`
returns `var1 + var2` with
var1 = ((raw>>3 - (T1<<1)) * T2) >> 11 and
var2 = (((raw>>4 - T1) * (raw>>4 - T1)) >> 12 * T3) >> 14,
all intermediates in wrapping 32-bit signed two's-complement arithmetic;
and on the reference vector T1=28485, T2=26735, T3=50, raw = 0x80BD0 it
returns t_fine = 116770. -/
theorem C1_compensate_temperature_formula :
    (∀ raw t1 t2 t3 : Int,
      TemperatureCalibration.compensate_temperature ⟨t1, t2, t3⟩ raw =
        t_fine_spec t1 t2 t3 raw) ∧
    TemperatureCalibration.compensate_temperature ⟨28485, 26735, 50⟩ 0x80BD0 = 116770 :=
  ⟨fun _ _ _ _ => rfl, by decide⟩

/-- C5: whenever the first intermediate polynomial term `var1` evaluates to
exactly 0, `compensate_pressure` returns 0; the division by `var1` occurs only
in the branch guarded by `var1 ≠ 0`, so the divisor is never zero. -/
theorem C5_pressure_zero_sentinel (c : PressureCalibration) (adc_p t_fine : Int)
    (h : c.var1_pre t_fine = 0) :
    c.compensate_pressure adc_p t_fine = 0 := by
  unfold PressureCalibration.compensate_pressure
  simp [h]

/-- C5 witness: with the all-zero coefficients, `var1` is zero and the
function returns 0. -/
theorem C5_pressure_zero_sentinel_witness :
    zeroPressureCal.var1_pre 0 = 0 ∧ zeroPressureCal.compensate_pressure 5 0 = 0 :=
  ⟨by decide, C5_pressure_zero_sentinel zeroPressureCal 5 0 (by decide)⟩

/-- C6: with P1..P9 = {36738, -10635, 3024, 6980, -4, -7, 9900, -10230, 4285},
raw pressure 0x524F0 and t_fine = 120035, `compensate_pressure` (64-bit signed
wrapping intermediates, result cast to u32) returns 26036801. -/
theorem C6_pressure_reference_vector :
    PressureCalibration.compensate_pressure
      ⟨36738, -10635, 3024, 6980, -4, -7, 9900, -10230, 4285⟩ 0x524F0 120035 =
      26036801 := by
  decide

/-- C7: for every coefficients, raw humidity sample and t_fine value, the
running value is clamped saturating into `[0, 419430400]` before the final
right shift, and the returned humidity lies in `[0, 102400]`. -/
theorem C7_humidity_saturation (c : HumidityCalibration) (adc_h t_fine : Int) :
    (0 ≤ c.clamped adc_h t_fine ∧ c.clamped adc_h t_fine ≤ 419430400) ∧
    (0 ≤ c.compensate_humidity adc_h t_fine ∧
      c.compensate_humidity adc_h t_fine ≤ 102400) := by
  have hb : 0 ≤ c.clamped adc_h t_fine ∧ c.clamped adc_h t_fine ≤ 419430400 := by
    unfold HumidityCalibration.clamped
    exact clampHumidity_bounds _
  refine ⟨hb, ?_, ?_⟩
  · exact Int.fdiv_nonneg hb.1 (by norm_num)
  · show Int.fdiv (c.clamped adc_h t_fine) (2 ^ 12) ≤ 102400
    rw [Int.fdiv_eq_ediv _ (by norm_num)]
    omega

/-- C8: with H1..H6 = {75, 365, 0, 312, 50, 30}, raw humidity 0x7561 and
t_fine = 116770, `compensate_humidity` (32-bit signed integer intermediates,
no floating point) returns 57350. -/
theorem C8_humidity_reference_vector :
    HumidityCalibration.compensate_humidity ⟨75, 365, 0, 312, 50, 30⟩ 0x7561 116770 =
      57350 := by
  decide

/-- helper: inverting `Option` bind. -/
theorem optBind_some {α β : Type} {a : Option α} {f : α → Option β} {c : β}
    (h : a >>= f = some c) : ∃ x, a = some x ∧ f x = some c := by
  cases a with
  | none => exact Option.noConfusion h
  | some x => exact ⟨x, rfl, h⟩

/-- helper: a two-register getter that returned a value read both registers. -/
theorem reads2 {dev : Device} {a b : Register} {α : Type}
    {f : List (Fin 256) → α} {v : α}
    (h : (unwrapAbort (read_multiple_registers dev [a, b])).map f = some v) :
    (dev a).isSome ∧ (dev b).isSome := by
  cases hA : dev a <;> cases hB : dev b <;>
    simp [read_multiple_registers, read_from_register, unwrapAbort, hA, hB] at h ⊢

/-- helper: a one-register getter that returned a value read its register. -/
theorem reads1 {dev : Device} {a : Register} {v : Nat}
    (h : (((unwrapAbort (read_multiple_registers dev [a])).bind
      List.getLast?).map Fin.val) = some v) :
    (dev a).isSome := by
  cases hA : dev a <;>
    simp [read_multiple_registers, read_from_register, unwrapAbort, hA] at h ⊢

/-- helper: `get_h4` reads the H4 MSB register and the shared LSB register. -/
theorem reads_h4 {dev : Device} {v : Int} (h : get_h4 dev = some v) :
    (dev .DIG_H4_MSB_REG).isSome ∧ (dev .DIG_H4_LSB_REG).isSome := by
  cases hA : dev .DIG_H4_MSB_REG <;> cases hB : dev .DIG_H4_LSB_REG <;>
    simp [get_h4, read_from_register, unwrapAbort, hA, hB] at h ⊢

/-- helper: `get_h5` reads the H5 MSB register and the shared LSB register. -/
theorem reads_h5 {dev : Device} {v : Int} (h : get_h5 dev = some v) :
    (dev .DIG_H5_MSB_REG).isSome ∧ (dev .DIG_H4_LSB_REG).isSome := by
  cases hA : dev .DIG_H5_MSB_REG <;> cases hB : dev .DIG_H4_LSB_REG <;>
    simp [get_h5, read_from_register, unwrapAbort, hA, hB] at h ⊢

/-- helper: `get_h6` reads the H6 register. -/
theorem reads_h6 {dev : Device} {v : Int} (h : get_h6 dev = some v) :
    (dev .DIG_H6_REG).isSome := by
  cases hA : dev .DIG_H6_REG <;>
    simp [get_h6, read_from_register, unwrapAbort, hA] at h ⊢

/-- helper: if the calibration build completed, every one of the calibration
registers was successfully read. -/
theorem calibration_build_reads_all {dev : Device} {c : Calibration}
    (hb : Calibration.build dev = some c) : ∀ r : Register, (dev r).isSome := by
  unfold Calibration.build at hb
  obtain ⟨t, ht, hb⟩ := optBind_some hb
  obtain ⟨p, hp, hb⟩ := optBind_some hb
  obtain ⟨hu, hh, -⟩ := optBind_some hb
  unfold TemperatureCalibration.build at ht
  obtain ⟨t1, ht1, ht⟩ := optBind_some ht
  obtain ⟨t2, ht2, ht⟩ := optBind_some ht
  obtain ⟨t3, ht3, -⟩ := optBind_some ht
  unfold PressureCalibration.build at hp
  obtain ⟨p1, hp1, hp⟩ := optBind_some hp
  obtain ⟨p2, hp2, hp⟩ := optBind_some hp
  obtain ⟨p3, hp3, hp⟩ := optBind_some hp
  obtain ⟨p4, hp4, hp⟩ := optBind_some hp
  obtain ⟨p5, hp5, hp⟩ := optBind_some hp
  obtain ⟨p6, hp6, hp⟩ := optBind_some hp
  obtain ⟨p7, hp7, hp⟩ := optBind_some hp
  obtain ⟨p8, hp8, hp⟩ := optBind_some hp
  obtain ⟨p9, hp9, -⟩ := optBind_some hp
  unfold HumidityCalibration.build at hh
  obtain ⟨h1, hh1, hh⟩ := optBind_some hh
  obtain ⟨h2, hh2, hh⟩ := optBind_some hh
  obtain ⟨h3, hh3, hh⟩ := optBind_some hh
  obtain ⟨h4, hh4, hh⟩ := optBind_some hh
  obtain ⟨h5, hh5, hh⟩ := optBind_some hh
  obtain ⟨h6, hh6, -⟩ := optBind_some hh
  unfold get_t1 at ht1
  unfold get_t2 at ht2
  unfold get_t3 at ht3
  unfold get_p1 at hp1
  unfold get_p2 at hp2
  unfold get_p3 at hp3
  unfold get_p4 at hp4
  unfold get_p5 at hp5
  unfold get_p6 at hp6
  unfold get_p7 at hp7
  unfold get_p8 at hp8
  unfold get_p9 at hp9
  unfold get_h1 at hh1
  unfold get_h2 at hh2
  unfold get_h3 at hh3
  have rT1 := reads2 ht1
  have rT2 := reads2 ht2
  have rT3 := reads2 ht3
  have rP1 := reads2 hp1
  have rP2 := reads2 hp2
  have rP3 := reads2 hp3
  have rP4 := reads2 hp4
  have rP5 := reads2 hp5
  have rP6 := reads2 hp6
  have rP7 := reads2 hp7
  have rP8 := reads2 hp8
  have rP9 := reads2 hp9
  have rH1 := reads1 hh1
  have rH2 := reads2 hh2
  have rH3 := reads1 hh3
  have rH4 := reads_h4 hh4
  have rH5 := reads_h5 hh5
  have rH6 := reads_h6 hh6
  intro r
  cases r <;> first
    | exact rT1.1 | exact rT1.2 | exact rT2.1 | exact rT2.2
    | exact rT3.1 | exact rT3.2
    | exact rP1.1 | exact rP1.2 | exact rP2.1 | exact rP2.2
    | exact rP3.1 | exact rP3.2 | exact rP4.1 | exact rP4.2
    | exact rP5.1 | exact rP5.2 | exact rP6.1 | exact rP6.2
    | exact rP7.1 | exact rP7.2 | exact rP8.1 | exact rP8.2
    | exact rP9.1 | exact rP9.2
    | exact rH1 | exact rH2.1 | exact rH2.2 | exact rH3
    | exact rH4.1 | exact rH4.2 | exact rH5.1 | exact rH6

/-- C2 amended: if any single register read fails during calibration decode,
the whole decode aborts the program (the getters `.unwrap()` every read,
modelled by `none`), so no CalibrationSet — partial or complete — is ever
produced; the failure is not reported as an I/O error value to the caller. -/
theorem C2_read_failure_aborts_build (dev : Device) (r : Register)
    (h : dev r = none) : Calibration.build dev = none := by
  cases hb : Calibration.build dev with
  | none => rfl
  | some c =>
    have hs := calibration_build_reads_all hb r
    rw [h] at hs
    exact Bool.noConfusion hs

/-- C2 witness: a device failing on the first calibration register makes the
build abort. -/
theorem C2_read_failure_aborts_build_witness :
    Calibration.build devT1Fail = none :=
  C2_read_failure_aborts_build devT1Fail .DIG_T1_LSB_REG rfl

/-- C2 counterexample: on a device whose `DIG_T1_LSB` read fails, the decode
the spec describes (`Calibration.buildSpec`) reports `IOError` to the caller,
but the code's decode (`Calibration.build`, whose return type carries no
error) aborts the program — `none` — instead of reporting an I/O failure. -/
theorem C2_counterexample :
    Calibration.build devT1Fail = none ∧
    Calibration.buildSpec devT1Fail = .error .IOError := by
  constructor <;> rfl

/-- C3: the 4th humidity coefficient decodes as
`(byte_A <<< 4) ||| (byte_shared &&& 0x0F)` and the 5th as
`(byte_B <<< 4) ||| ((byte_shared >>> 4) &&& 0x0F)`, where `byte_shared` is
the value of the single shared register `DIG_H4_LSB_REG`, read once by each
of the two getters. -/
theorem C3_shared_nibble_decode (dev : Device) (bA bS bB : Fin 256)
    (hA : dev .DIG_H4_MSB_REG = some bA) (hS : dev .DIG_H4_LSB_REG = some bS)
    (hB : dev .DIG_H5_MSB_REG = some bB) :
    get_h4 dev = some (toI16 ((bA.val <<< 4) ||| (bS.val &&& 0x0F))) ∧
    get_h5 dev = some (toI16 ((bB.val <<< 4) ||| ((bS.val >>> 4) &&& 0x0F))) := by
  constructor <;>
    simp [get_h4, get_h5, read_from_register, unwrapAbort, hA, hS, hB]

/-- C3 witness: with the repository test's bytes 19 (H4 MSB), 40 (shared LSB)
and 3 (H5 MSB), the decoded pair is (312, 50). -/
theorem C3_shared_nibble_decode_witness :
    get_h4 devH45 = some 312 ∧ get_h5 devH45 = some 50 := by
  have h := C3_shared_nibble_decode devH45 19 40 3 rfl rfl rfl
  exact ⟨h.1.trans (by decide), h.2.trans (by decide)⟩

/-- C4: on a device whose packed H4 field is 2048 (MSB byte 0x80, shared byte
0x00), the code decodes the coefficient as +2048 — the `u16`-to-`i16` cast
never sign-extends the 12-bit field — whereas the 12-bit two's-complement
decode the claim describes yields -2048. -/
theorem C4_h4_not_sign_extended :
    get_h4 devH4Neg = some 2048 ∧ signExtend12 2048 = -2048 := by
  decide

/-- C9 counterexample: the raw value 4 is outside Mode's recognized set, yet
decoding it aborts the program (`none` models the `panic`) instead of
yielding an explicit configuration error; and the raw value 6 is outside
Oversampling's recognized encodings, yet it is silently mapped to `Ox16`. -/
theorem C9_counterexample :
    Mode.fromU8 4 = none ∧ Oversampling.fromU8 6 = Oversampling.Ox16 := by
  decide

set_option maxRecDepth 4096 in
/-- C9 amended: for every raw byte outside the recognized enumerated sets, no
conversion yields an explicit configuration error: `Mode` and `StandyTime`
decoding aborts the program (`none` models the `panic`), while `Oversampling`
and `Filter` silently map the out-of-range value to the largest variant. -/
theorem C9_out_of_range_decoding (x : Nat) (hx : x ≤ 255) :
    (4 ≤ x → Mode.fromU8 x = none) ∧
    (8 ≤ x → StandyTime.fromU8 x = none) ∧
    (6 ≤ x → Oversampling.fromU8 x = Oversampling.Ox16) ∧
    (4 ≤ x &&& 0x7 → Filter.fromU8 x = Filter.C16) := by
  revert x
  decide

/-- C9 witness: the amended statement at raw bytes 9 and 13. -/
theorem C9_out_of_range_decoding_witness :
    Mode.fromU8 9 = none ∧ StandyTime.fromU8 9 = none ∧
    Oversampling.fromU8 9 = Oversampling.Ox16 ∧
    Filter.fromU8 13 = Filter.C16 :=
  ⟨(C9_out_of_range_decoding 9 (by decide)).1 (by decide),
   (C9_out_of_range_decoding 9 (by decide)).2.1 (by decide),
   (C9_out_of_range_decoding 9 (by decide)).2.2.1 (by decide),
   (C9_out_of_range_decoding 13 (by decide)).2.2.2 (by decide)⟩

/-- C10: `new` initializes the stored `t_fine` to 0; only
`get_temperature_celsius` writes it (and leaves the calibration unchanged);
`get_pressure_pascal` and `get_humidity_relative` leave the whole state —
`t_fine` and calibration — unchanged; consequently a pressure or humidity
reading taken on a freshly built sensor is computed with `t_fine = 0`. -/
theorem C10_t_fine_frame :
    (∀ (dev : Device) (s : AtmosphericSensor),
      AtmosphericSensor.new dev = some s → s.t_fine = 0) ∧
    (∀ (s : AtmosphericSensor) (adc_t : Int),
      (s.get_temperature_celsius adc_t).1.t_fine =
        s.calibration.temperature.compensate_temperature adc_t ∧
      (s.get_temperature_celsius adc_t).1.calibration = s.calibration) ∧
    (∀ (s : AtmosphericSensor) (adc_p : Int), (s.get_pressure_pascal adc_p).1 = s) ∧
    (∀ (s : AtmosphericSensor) (adc_h : Int), (s.get_humidity_relative adc_h).1 = s) ∧
    (∀ (dev : Device) (s : AtmosphericSensor) (adc : Int),
      AtmosphericSensor.new dev = some s →
      (s.get_pressure_pascal adc).2 =
        s.calibration.pressure.compensate_pressure adc 0 ∧
      (s.get_humidity_relative adc).2 =
        s.calibration.humidity.compensate_humidity adc 0) := by
  have hnew : ∀ (dev : Device) (s : AtmosphericSensor),
      AtmosphericSensor.new dev = some s → s.t_fine = 0 := by
    intro dev s h
    rw [AtmosphericSensor.new, Option.map_eq_some'] at h
    obtain ⟨c, -, rfl⟩ := h
    rfl
  refine ⟨hnew, ?_, ?_, ?_, ?_⟩
  · intro s adc
    exact ⟨rfl, rfl⟩
  · intro s adc
    rfl
  · intro s adc
    rfl
  · intro dev s adc h
    have h0 := hnew dev s h
    constructor
    · show s.calibration.pressure.compensate_pressure adc s.t_fine = _
      rw [h0]
    · show s.calibration.humidity.compensate_humidity adc s.t_fine = _
      rw [h0]

/-- C10 witness: on the all-zero device the build succeeds, the fresh sensor
has `t_fine = 0`, and a pressure or humidity reading taken right away is
computed with `t_fine = 0`. -/
theorem C10_t_fine_frame_witness :
    AtmosphericSensor.new fullDev = some zeroSensor ∧
    zeroSensor.t_fine = 0 ∧
    (zeroSensor.get_pressure_pascal 7).2 =
      zeroSensor.calibration.pressure.compensate_pressure 7 0 ∧
    (zeroSensor.get_humidity_relative 7).2 =
      zeroSensor.calibration.humidity.compensate_humidity 7 0 :=
  ⟨by decide,
   C10_t_fine_frame.1 fullDev zeroSensor (by decide),
   (C10_t_fine_frame.2.2.2.2 fullDev zeroSensor 7 (by decide)).1,
   (C10_t_fine_frame.2.2.2.2 fullDev zeroSensor 7 (by decide)).2⟩

end AtmoSensor
